import Mathlib

/-!
Verification development for the excel_to_geojson pipeline (src/app.py).

The geometry-construction and CRS pipeline of the source is shallowly
embedded: `make_gdf_from_xy`, `make_gdf_from_wkt` and `to_geojson_bytes`
become Lean functions over an explicit table model; the Streamlit
reprojection step (lines 164-166 of app.py) becomes `reprojectStep`.
Python exceptions are modelled with `Except`; machine floats are modelled
by exact rationals plus explicit NaN and infinities (no claim depends on
binary64 rounding).  The geodetic registry (pyproj) and the WKT reader
(shapely) are third-party dependencies of the source; following the
design note of the spec they are injected as explicit parameters
(`registry : Nat → Bool`, `parse : String → Except String Geom`), with
general theorems quantifying over them and concrete instantiations used
for witnesses.
-/

namespace App

/-- Model of a Python floating-point cell value as held by pandas.  Finite
values are exact rationals (binary64 rounding of the source is abstracted;
no claim depends on it); NaN and the two infinities are explicit. -/
inductive PFloat where
  | fin : ℚ → PFloat
  | inf : PFloat
  | ninf : PFloat
  | nan : PFloat
deriving DecidableEq, Repr

/-- Model of a shapely geometry as produced by `wkt.loads` or
`gpd.points_from_xy`: typed coordinate structure in the current CRS. -/
inductive Geom where
  | point : PFloat → PFloat → Geom
  | lineString : List (PFloat × PFloat) → Geom
  | polygon : List (List (PFloat × PFloat)) → Geom
  | multiPoint : List (PFloat × PFloat) → Geom
  | multiLineString : List (List (PFloat × PFloat)) → Geom
  | multiPolygon : List (List (List (PFloat × PFloat))) → Geom
deriving DecidableEq, Repr

/-- Model of a pandas cell: a string, a float, a missing marker
(None/NaN as read from the sheet), or an arbitrary Python object (a
shapely geometry, as stored in the `__geom__` helper column). -/
inductive Scalar where
  | str : String → Scalar
  | num : PFloat → Scalar
  | null : Scalar
  | obj : Geom → Scalar
deriving DecidableEq, Repr

/-- Model of `pd.isna` on a cell: missing markers and float NaN are na. -/
def Scalar.isna : Scalar → Bool
  | .null => true
  | .num .nan => true
  | _ => false

/-- ASCII lowercasing of one character (the case folding relevant to the
special float spellings). -/
def asciiLower (c : Char) : Char :=
  if 65 ≤ c.toNat ∧ c.toNat ≤ 90 then Char.ofNat (c.toNat + 32) else c

/-- Strip leading and trailing spaces. -/
def trimSpaces (cs : List Char) : List Char :=
  ((cs.dropWhile (fun c => c = ' ')).reverse.dropWhile (fun c => c = ' ')).reverse

/-- Split a character list on a separator character. -/
def splitOnChar (sep : Char) : List Char → List (List Char)
  | [] => [[]]
  | c :: cs =>
    if c = sep then [] :: splitOnChar sep cs
    else
      match splitOnChar sep cs with
      | [] => [[c]]
      | g :: gs => (c :: g) :: gs

/-- Value of a decimal digit run (used by the numeric-string parser). -/
def digitsToNat (cs : List Char) : Nat :=
  cs.foldl (fun a c => a * 10 + (c.toNat - 48)) 0

/-- A nonempty all-digit run. -/
def allDigits (cs : List Char) : Bool :=
  decide (cs ≠ []) && cs.all Char.isDigit

/-- Parse the mantissa part of a float literal: digits with an optional
decimal point (at least one digit overall). -/
def parseMantissa (cs : List Char) : Option ℚ :=
  match splitOnChar '.' cs with
  | [a] => if allDigits a then some ((digitsToNat a : ℚ)) else none
  | [a, b] =>
      if (a.all Char.isDigit && b.all Char.isDigit)
          && !(decide (a = []) && decide (b = [])) then
        some ((digitsToNat a : ℚ) + (digitsToNat b : ℚ) / ((10 : ℚ) ^ b.length))
      else none
  | _ => none

/-- Parse the exponent part of a float literal: optional sign and digits,
applied to an already parsed mantissa. -/
def applyExponent (q : ℚ) (ex : List Char) : Option ℚ :=
  match ex with
  | '-' :: ds =>
      if allDigits ds then some (q / (10 : ℚ) ^ digitsToNat ds) else none
  | '+' :: ds =>
      if allDigits ds then some (q * (10 : ℚ) ^ digitsToNat ds) else none
  | ds =>
      if allDigits ds then some (q * (10 : ℚ) ^ digitsToNat ds) else none

/-- Parse an unsigned float literal, with optional exponent part. -/
def parseUnsigned (cs : List Char) : Option ℚ :=
  match splitOnChar 'e' cs with
  | [m] => parseMantissa m
  | [m, ex] =>
      match parseMantissa m with
      | some q => applyExponent q ex
      | none => none
  | _ => none

/-- Model of numeric coercion of a string (the parse used by
`pd.to_numeric`): optional sign, decimal/scientific notation, and the
special spellings of nan and the infinities. -/
def parseFloat? (s0 : String) : Option PFloat :=
  let cs := (trimSpaces s0.data).map asciiLower
  if cs = "nan".data ∨ cs = "+nan".data ∨ cs = "-nan".data then some .nan
  else if cs = "inf".data ∨ cs = "+inf".data ∨ cs = "infinity".data
      ∨ cs = "+infinity".data then some .inf
  else if cs = "-inf".data ∨ cs = "-infinity".data then some .ninf
  else
    match cs with
    | '-' :: body => (parseUnsigned body).map (fun q => .fin (-q))
    | '+' :: body => (parseUnsigned body).map (fun q => .fin q)
    | body => (parseUnsigned body).map (fun q => .fin q)

/-- Model of `pd.to_numeric(cell, errors="coerce")` on one cell: numbers
pass through, everything that fails coercion becomes NaN. -/
def toNumeric (v : Scalar) : Scalar :=
  match v with
  | .num x => .num x
  | .str s =>
      match parseFloat? s with
      | some x => .num x
      | none => .num .nan
  | .null => .num .nan
  | .obj _ => .num .nan

/-- Extract the float of a numeric cell (total; only applied to cells
already coerced by `toNumeric`). -/
def scalarFloat (v : Scalar) : PFloat :=
  match v with
  | .num x => x
  | _ => .nan

/-- Extract the geometry object of a cell (total; only applied to the
`__geom__` column after its na rows were dropped). -/
def scalarGeom (v : Scalar) : Geom :=
  match v with
  | .obj g => g
  | _ => .point .nan .nan

/-- Model of a pandas DataFrame: ordered column names and rows of cells.
The readers of the source (`pd.read_excel`, `pd.read_csv`) mangle
duplicate headers, so column names are unique in every table the
pipeline receives; theorems that need this state it as a `Nodup`
hypothesis. -/
structure Table where
  cols : List String
  rows : List (List Scalar)
deriving DecidableEq, Repr

/-- Position of a column name in a header (first match, as pandas
resolves a column label). -/
def colIdx (c : String) : List String → Option Nat
  | [] => none
  | c0 :: cs => if c0 = c then some 0 else (colIdx c cs).map (· + 1)

/-- Read the cell of a row under a column name (`row[col]`). -/
def getCell (cols : List String) (r : List Scalar) (c : String) : Scalar :=
  match colIdx c cols with
  | some i => r.getD i .null
  | none => .null

/-- Replace the cell under column `c` of one row by its numeric coercion
(row-level action of `df[c] = pd.to_numeric(df[c], errors="coerce")`). -/
def coerceCellAt (cols : List String) (c : String) (r : List Scalar) : List Scalar :=
  match colIdx c cols with
  | some i => r.set i (toNumeric (r.getD i .null))
  | none => r

/-- Model of `df[c] = pd.to_numeric(df[c], errors="coerce")` (only ever
applied after the presence check of the source). -/
def Table.coerceNumeric (t : Table) (c : String) : Table :=
  { t with rows := t.rows.map (coerceCellAt t.cols c) }

/-- Row predicate of `df.dropna(subset=sub)`: every subset cell is non-na. -/
def keepRow (cols : List String) (sub : List String) (r : List Scalar) : Bool :=
  sub.all (fun c => !(getCell cols r c).isna)

/-- Model of `df.dropna(subset=sub)`. -/
def Table.dropna (t : Table) (sub : List String) : Table :=
  { t with rows := t.rows.filter (keepRow t.cols sub) }

/-- Model of column assignment `df[c] = vals`: overwrite in place when the
column exists, append a new column otherwise (the assigned series always
has one value per row in the source, so the zip is exact). -/
def Table.setCol (t : Table) (c : String) (vals : List Scalar) : Table :=
  match colIdx c t.cols with
  | some i => { t with rows := (t.rows.zip vals).map (fun p => p.1.set i p.2) }
  | none =>
      { cols := t.cols ++ [c],
        rows := (t.rows.zip vals).map (fun p => p.1 ++ [p.2]) }

/-- Model of `df.drop(columns=[c])` (always applied to a present column). -/
def Table.dropCol (t : Table) (c : String) : Table :=
  match colIdx c t.cols with
  | some i => { cols := t.cols.eraseIdx i, rows := t.rows.map (fun r => r.eraseIdx i) }
  | none => t

/-- Model of a GeoDataFrame: attribute table plus one geometry per row and
the CRS tag (an EPSG code). -/
structure Gdf where
  cols : List String
  rows : List (List Scalar)
  geoms : List Geom
  crs : Nat
deriving DecidableEq, Repr

/-- Errors raised by the build functions of the source: the `ValueError`
of the missing-column checks, the shapely exception escaping the WKT
parse, and the pyproj `CRSError` raised while resolving the EPSG code of
the `crs=` argument of the GeoDataFrame constructor. -/
inductive BuildError where
  | columnNotFound : String → BuildError
  | wktParseError : String → BuildError
  | crsError : Nat → BuildError
deriving DecidableEq, Repr

/-- Model of `gpd.GeoDataFrame(df, geometry=geoms, crs=f"EPSG:{e}")`:
pyproj resolves the EPSG code against the geodetic registry and raises
`CRSError` when the code is unknown; otherwise the data is stored
unchanged with the CRS tag attached.  The registry is injected. -/
def mkGeoDataFrame (registry : Nat → Bool) (t : Table) (geoms : List Geom)
    (e : Nat) : Except BuildError Gdf :=
  if registry e then .ok ⟨t.cols, t.rows, geoms, e⟩ else .error (.crsError e)

/-- Embedding of `make_gdf_from_xy` (src/app.py lines 35-48): presence
check, numeric coercion of both columns, dropna on both, then point
construction and GeoDataFrame construction with the input CRS. -/
def make_gdf_from_xy (registry : Nat → Bool) (df : Table)
    (x_col y_col : String) (epsg_in : Nat) : Except BuildError Gdf :=
  if x_col ∉ df.cols ∨ y_col ∉ df.cols then
    .error (.columnNotFound "Selected X or Y column not found in the table.")
  else
    let df1 := (df.coerceNumeric x_col).coerceNumeric y_col
    let df2 := df1.dropna [x_col, y_col]
    mkGeoDataFrame registry df2
      (df2.rows.map (fun r =>
        Geom.point (scalarFloat (getCell df2.cols r x_col))
          (scalarFloat (getCell df2.cols r y_col)))) epsg_in

/-- Sequential effectful map, as pandas `.apply` evaluates a Python
lambda cell by cell: the first raised exception aborts the whole call. -/
def mapExcept {α β ε : Type} (f : α → Except ε β) : List α → Except ε (List β)
  | [] => .ok []
  | a :: as =>
    match f a with
    | .error e => .error e
    | .ok b =>
      match mapExcept f as with
      | .error e => .error e
      | .ok bs => .ok (b :: bs)

/-- Model of the lambda of line 55, `wkt.loads(s) if pd.notna(s) else None`:
na cells become None; string cells go through the WKT reader, whose parse
exception propagates (there is no try/except around it); non-string
non-na cells make `wkt.loads` raise a TypeError. -/
def wktCell (parse : String → Except String Geom) (v : Scalar) :
    Except BuildError Scalar :=
  if v.isna then .ok .null
  else
    match v with
    | .str s =>
        match parse s with
        | .ok g => .ok (.obj g)
        | .error m => .error (.wktParseError m)
    | _ => .error (.wktParseError "TypeError: only str accepted by the WKT reader")

/-- The helper column name used by `make_gdf_from_wkt`. -/
def geomColName : String := "__geom__"

/-- Embedding of `make_gdf_from_wkt` (src/app.py lines 50-62): presence
check, per-cell WKT parse into the `__geom__` helper column (exceptions
propagate), dropna on `__geom__`, then GeoDataFrame construction from the
table without `__geom__` and the parsed geometries, with the input CRS. -/
def make_gdf_from_wkt (registry : Nat → Bool)
    (parse : String → Except String Geom) (df : Table) (wkt_col : String)
    (epsg_in : Nat) : Except BuildError Gdf :=
  if wkt_col ∉ df.cols then
    .error (.columnNotFound "WKT column not found.")
  else
    match mapExcept (fun r => wktCell parse (getCell df.cols r wkt_col)) df.rows with
    | .error e => .error e
    | .ok parsed =>
      let df1 := df.setCol geomColName parsed
      let df2 := df1.dropna [geomColName]
      mkGeoDataFrame registry (df2.dropCol geomColName)
        (df2.rows.map (fun r => scalarGeom (getCell df2.cols r geomColName))) epsg_in

/-- Embedding of the reprojection step of the caller (src/app.py lines
164-166): `if epsg_in != epsg_out: gdf = gdf.to_crs(epsg=epsg_out)`.
The collection carries `crs = epsg_in` from its construction, so the
guard is expressed on the CRS tag; the geodetic transformation of
`to_crs` is injected as `transform src dst geom`. -/
def reprojectStep (transform : Nat → Nat → Geom → Except String Geom)
    (g : Gdf) (epsg_out : Nat) : Except String Gdf :=
  if g.crs ≠ epsg_out then
    match mapExcept (transform g.crs epsg_out) g.geoms with
    | .error e => .error e
    | .ok gs => .ok { g with geoms := gs, crs := epsg_out }
  else .ok g

/-- Literal left brace of the JSON text. -/
def lb : String := "\x7b"

/-- Literal right brace of the JSON text. -/
def rb : String := "\x7d"

/-- Four-digit lowercase hex rendering (for the \u escapes of
`json.dumps`, whose default ensure_ascii escapes non-ASCII characters). -/
def hex4 (n : Nat) : String :=
  let ds := (Nat.toDigits 16 n).map (fun c => c.toLower)
  String.mk (List.replicate (4 - ds.length) (Char.ofNat 48) ++ ds)

/-- JSON string escaping as performed by `json.dumps` (default
ensure_ascii): quote, backslash, the common control escapes, and \u
escapes for the remaining control and non-ASCII characters. -/
def jsonEscape (s : String) : String :=
  s.data.foldl (fun acc c =>
    acc ++ (if c = Char.ofNat 34 then "\\\""
      else if c = Char.ofNat 92 then "\\\\"
      else if c = Char.ofNat 10 then "\\n"
      else if c = Char.ofNat 13 then "\\r"
      else if c = Char.ofNat 9 then "\\t"
      else if c.toNat < 32 || c.toNat > 126 then "\\u" ++ hex4 c.toNat
      else String.mk [c])) ""

/-- Number rendering of the encoder.  The source relies on Python repr,
a fixed deterministic function of the float value; the model renders the
exact rational deterministically (integers bare, other values as a
fraction).  No claim depends on the digit sequence itself. -/
def ratRepr (q : ℚ) : String :=
  if q.den = 1 then toString q.num
  else toString q.num ++ "/" ++ toString q.den

/-- Rendering of one coordinate float by `json.dumps` (coordinates are
not subjected to the na handling of properties; allow_nan is the default,
so the non-standard tokens NaN/Infinity are emitted). -/
def jsonOfFloat (x : PFloat) : String :=
  match x with
  | .fin q => ratRepr q
  | .inf => "Infinity"
  | .ninf => "-Infinity"
  | .nan => "NaN"

/-- Rendering of one coordinate pair. -/
def jsonOfPair (p : PFloat × PFloat) : String :=
  "[" ++ jsonOfFloat p.1 ++ ", " ++ jsonOfFloat p.2 ++ "]"

/-- Rendering of a coordinate sequence. -/
def jsonOfRing (r : List (PFloat × PFloat)) : String :=
  "[" ++ String.intercalate ", " (r.map jsonOfPair) ++ "]"

/-- Rendering of a list of coordinate sequences. -/
def jsonOfRings (rs : List (List (PFloat × PFloat))) : String :=
  "[" ++ String.intercalate ", " (rs.map jsonOfRing) ++ "]"

/-- Rendering of a geometry object (the geometry member of the geo
interface dict serialized by `json.dumps`). -/
def jsonOfGeom : Geom → String
  | .point x y =>
      lb ++ "\"type\": \"Point\", \"coordinates\": " ++ jsonOfPair (x, y) ++ rb
  | .lineString ps =>
      lb ++ "\"type\": \"LineString\", \"coordinates\": " ++ jsonOfRing ps ++ rb
  | .polygon rs =>
      lb ++ "\"type\": \"Polygon\", \"coordinates\": " ++ jsonOfRings rs ++ rb
  | .multiPoint ps =>
      lb ++ "\"type\": \"MultiPoint\", \"coordinates\": " ++ jsonOfRing ps ++ rb
  | .multiLineString rs =>
      lb ++ "\"type\": \"MultiLineString\", \"coordinates\": " ++ jsonOfRings rs ++ rb
  | .multiPolygon ps =>
      lb ++ "\"type\": \"MultiPolygon\", \"coordinates\": ["
        ++ String.intercalate ", " (ps.map jsonOfRings) ++ "]" ++ rb

/-- Rendering of one property value.  GeoDataFrame.to_json uses its
default na="null", so na cells (None, NaN) are emitted as null; finite
floats and strings are serialized by `json.dumps`; the infinities are NOT
na, and `json.dumps` (default allow_nan) emits the non-standard tokens
Infinity / -Infinity for them; a raw Python object in a property makes
`json.dumps` raise a TypeError. -/
def jsonOfProp (v : Scalar) : Except String String :=
  if v.isna then .ok "null"
  else
    match v with
    | .str s => .ok ("\"" ++ jsonEscape s ++ "\"")
    | .num (.fin q) => .ok (ratRepr q)
    | .num .inf => .ok "Infinity"
    | .num .ninf => .ok "-Infinity"
    | .num .nan => .ok "null"
    | .null => .ok "null"
    | .obj _ => .error "TypeError: Object is not JSON serializable"

/-- The rendered key-value items of one properties object, in column
order. -/
def propItems (cols : List String) (r : List Scalar) :
    Except String (List String) :=
  mapExcept (fun p =>
    match jsonOfProp p.2 with
    | .ok v => .ok ("\"" ++ jsonEscape p.1 ++ "\": " ++ v)
    | .error e => .error e) (cols.zip r)

/-- Rendering of one Feature object of the output (with drop_id=True the
members are type, properties, geometry, in that order). -/
def jsonOfFeature (cols : List String) (r : List Scalar) (g : Geom) :
    Except String String :=
  match propItems cols r with
  | .error e => .error e
  | .ok items =>
      .ok (lb ++ "\"type\": \"Feature\", \"properties\": " ++ lb
        ++ String.intercalate ", " items ++ rb
        ++ ", \"geometry\": " ++ jsonOfGeom g ++ rb)

/-- Opening text of the FeatureCollection object. -/
def fcHeader : String := lb ++ "\"type\": \"FeatureCollection\", \"features\": ["

/-- Closing text of the FeatureCollection object. -/
def fcFooter : String := "]" ++ rb

/-- Embedding of `gdf.to_json(drop_id=True)` (line 66): serialize the
features in collection order into one FeatureCollection text.  The CRS
tag is not consulted and no crs member is written. -/
def gdf_to_json (g : Gdf) : Except String String :=
  match mapExcept (fun p => jsonOfFeature g.cols p.1 p.2) (g.rows.zip g.geoms) with
  | .error e => .error e
  | .ok feats => .ok (fcHeader ++ String.intercalate ", " feats ++ fcFooter)

/-- UTF-8 encoding of one character, as a list of byte values. -/
def utf8Char (c : Char) : List Nat :=
  let n := c.toNat
  if n < 128 then [n]
  else if n < 2048 then [192 + n / 64, 128 + n % 64]
  else if n < 65536 then [224 + n / 4096, 128 + (n / 64) % 64, 128 + n % 64]
  else [240 + n / 262144, 128 + (n / 4096) % 64, 128 + (n / 64) % 64, 128 + n % 64]

/-- UTF-8 encoding of a string (model of `text.encode("utf-8")`). -/
def utf8Bytes (s : String) : List Nat :=
  (s.data.map utf8Char).flatten

/-- Embedding of `to_geojson_bytes` (src/app.py lines 64-67):
`gdf.to_json(drop_id=True).encode("utf-8")`. -/
def to_geojson_bytes (g : Gdf) : Except String (List Nat) :=
  match gdf_to_json g with
  | .error e => .error e
  | .ok t => .ok (utf8Bytes t)

/-- A concrete instantiation of the injected geodetic registry, covering
the codes of the COMMON_EPSG table of the source (lines 17-22). -/
def sampleRegistry (e : Nat) : Bool :=
  e = 4326 || e = 3857 || e = 2056 || e = 3035

/-- A concrete instantiation of the injected WKT reader, for witnesses
and counterexamples: it accepts two point literals and one polygon
literal and, like shapely `wkt.loads`, fails on everything else. -/
def sampleParse (s : String) : Except String Geom :=
  if s = "POINT (1 2)" then .ok (.point (.fin 1) (.fin 2))
  else if s = "POINT (3 4)" then .ok (.point (.fin 3) (.fin 4))
  else if s = "POLYGON ((0 0, 0 1, 1 1, 1 0, 0 0))" then
    .ok (.polygon [[(.fin 0, .fin 0), (.fin 0, .fin 1), (.fin 1, .fin 1),
      (.fin 1, .fin 0), (.fin 0, .fin 0)]])
  else .error ("ParseException: could not parse " ++ s)

/-- The xy-mode scenario table of the spec: rows lon/lat = (7.45, 46.95)
and (bad, 46.9). -/
def sampleXyTable : Table :=
  ⟨["lon", "lat"],
   [[.str "7.45", .str "46.95"],
    [.str "bad", .str "46.9"]]⟩

/-- A wkt-mode table whose second row holds malformed WKT. -/
def sampleBadWktTable : Table :=
  ⟨["name", "geom"],
   [[.str "a", .str "POINT (1 2)"],
    [.str "b", .str "NOT_A_WKT"]]⟩

/-- A wkt-mode table with only well-formed WKT. -/
def sampleGoodWktTable : Table :=
  ⟨["name", "geom"],
   [[.str "a", .str "POINT (1 2)"],
    [.str "b", .str "POINT (3 4)"]]⟩

/-- A collection tagged with a CRS other than EPSG:4326. -/
def sampleGdf3857 : Gdf :=
  ⟨["name"], [[.str "a"]], [.point (.fin 1) (.fin 2)], 3857⟩

/-- A collection with an infinite numeric property value. -/
def sampleGdfInf : Gdf :=
  ⟨["v"], [[.num .inf]], [.point (.fin 0) (.fin 0)], 4326⟩

/-- A small collection used by the encoder witnesses. -/
def sampleGdfSmall : Gdf :=
  ⟨["a"], [[.str "v"]], [.point (.fin 1) (.fin 2)], 4326⟩

/-- Row predicate of the silent-drop policy in xy mode: the row survives
iff both its x-cell and its y-cell coerce to a non-na number. -/
def xyPass (cols : List String) (x y : String) (r : List Scalar) : Bool :=
  !(toNumeric (getCell cols r x)).isna && !(toNumeric (getCell cols r y)).isna

/-! Helper lemmas about the table model. -/

theorem toNumeric_isNum (v : Scalar) : ∃ x, toNumeric v = .num x := by
  cases v with
  | str s => cases h : parseFloat? s <;> simp [toNumeric, h]
  | num x => exact ⟨x, rfl⟩
  | null => exact ⟨.nan, rfl⟩
  | obj g => exact ⟨.nan, rfl⟩

theorem toNumeric_toNumeric (v : Scalar) : toNumeric (toNumeric v) = toNumeric v := by
  obtain ⟨x, hx⟩ := toNumeric_isNum v
  rw [hx]
  rfl

theorem colIdx_eq_none_of_not_mem (c : String) :
    ∀ (l : List String), c ∉ l → colIdx c l = none := by
  intro l
  induction l with
  | nil => intro _; rfl
  | cons c0 cs ih =>
    intro h
    simp only [List.mem_cons, not_or] at h
    have hne : ¬c0 = c := fun he => h.1 he.symm
    simp [colIdx, hne, ih h.2]

theorem colIdx_mem (c : String) :
    ∀ (l : List String), c ∈ l → ∃ i, colIdx c l = some i := by
  intro l
  induction l with
  | nil => intro h; cases h
  | cons c0 cs ih =>
    intro h
    by_cases hc : c0 = c
    · exact ⟨0, by simp [colIdx, hc]⟩
    · have hm : c ∈ cs := by
        cases List.mem_cons.mp h with
        | inl h1 => exact absurd h1.symm hc
        | inr h2 => exact h2
      obtain ⟨i, hi⟩ := ih hm
      exact ⟨i + 1, by simp [colIdx, hc, hi]⟩

theorem colIdx_getD (c d : String) :
    ∀ (l : List String) (i : Nat), colIdx c l = some i → l.getD i d = c := by
  intro l
  induction l with
  | nil => intro i h; cases h
  | cons c0 cs ih =>
    intro i h
    by_cases hc : c0 = c
    · simp only [colIdx, hc, if_true, eq_self_iff_true, if_pos] at h
      rw [← Option.some_inj.mp h]
      simpa using hc
    · simp only [colIdx, hc, if_false, ite_false] at h
      rw [Option.map_eq_some'] at h
      obtain ⟨j, hj, rfl⟩ := h
      simpa using ih j hj

theorem getD_set_lt {α : Type} (l : List α) (i : Nat) (v d : α) (h : i < l.length) :
    (l.set i v).getD i d = v := by
  rw [List.getD_eq_getElem?_getD, List.getElem?_set_eq_of_lt v h, Option.getD_some]

theorem getD_set_ne2 {α : Type} (l : List α) {i j : Nat} (v d : α) (h : i ≠ j) :
    (l.set i v).getD j d = l.getD j d := by
  rw [List.getD_eq_getElem?_getD, List.getD_eq_getElem?_getD, List.getElem?_set_ne h]

theorem getD_ge {α : Type} (l : List α) (i : Nat) (d : α) (h : l.length ≤ i) :
    l.getD i d = d := by
  rw [List.getD_eq_getElem?_getD, List.getElem?_eq_none h]
  rfl

theorem mapExcept_ok_length {α β ε : Type} (f : α → Except ε β) :
    ∀ (xs : List α) (ys : List β), mapExcept f xs = .ok ys → ys.length = xs.length := by
  intro xs
  induction xs with
  | nil =>
    intro ys h
    simp only [mapExcept] at h
    rw [← Except.ok.inj h]
    rfl
  | cons a as ih =>
    intro ys h
    simp only [mapExcept] at h
    cases hf : f a with
    | error e => rw [hf] at h; cases h
    | ok b =>
      rw [hf] at h
      cases hm : mapExcept f as with
      | error e => rw [hm] at h; cases h
      | ok bs =>
        rw [hm] at h
        rw [← Except.ok.inj h]
        simp [ih bs hm]

theorem mapExcept_ok_get {α β ε : Type} (f : α → Except ε β) :
    ∀ (xs : List α) (ys : List β), mapExcept f xs = .ok ys →
      ∀ (i : Nat) (h1 : i < xs.length) (h2 : i < ys.length),
        f (xs.get ⟨i, h1⟩) = .ok (ys.get ⟨i, h2⟩) := by
  intro xs
  induction xs with
  | nil => intro ys h i h1 h2; exact absurd h1 (Nat.not_lt_zero i)
  | cons a as ih =>
    intro ys h i h1 h2
    simp only [mapExcept] at h
    cases hf : f a with
    | error e => rw [hf] at h; cases h
    | ok b =>
      rw [hf] at h
      cases hm : mapExcept f as with
      | error e => rw [hm] at h; cases h
      | ok bs =>
        rw [hm] at h
        have hy := Except.ok.inj h
        subst hy
        cases i with
        | zero => simpa using hf
        | succ j =>
          exact ih bs hm j (Nat.lt_of_succ_lt_succ h1) (Nat.lt_of_succ_lt_succ h2)

theorem mapExcept_set_zip {β ε : Type} (f : List Scalar → Except ε β) (i : Nat)
    (hf : ∀ (r : List Scalar) (v : Scalar), f (r.set i v) = f r) :
    ∀ (rows : List (List Scalar)) (vals : List Scalar), vals.length = rows.length →
      mapExcept f ((rows.zip vals).map (fun p => p.1.set i p.2)) = mapExcept f rows := by
  intro rows
  induction rows with
  | nil => intro vals h; simp
  | cons r rs ih =>
    intro vals h
    cases vals with
    | nil => simp at h
    | cons v vs =>
      have hzip : (r :: rs).zip (v :: vs) = (r, v) :: rs.zip vs := rfl
      rw [hzip, List.map_cons]
      simp only [mapExcept, hf r v]
      rw [ih vs (by simpa using h)]

theorem map_set_zip_set (i : Nat) :
    ∀ (rows : List (List Scalar)) (vals parsed : List Scalar),
      vals.length = rows.length →
      (((rows.zip vals).map (fun p => p.1.set i p.2)).zip parsed).map
          (fun p => p.1.set i p.2)
        = (rows.zip parsed).map (fun p => p.1.set i p.2) := by
  intro rows
  induction rows with
  | nil => intro vals parsed h; simp
  | cons r rs ih =>
    intro vals parsed h
    cases vals with
    | nil => simp at h
    | cons v vs =>
      cases parsed with
      | nil => simp
      | cons w ws =>
        have h1 : (r :: rs).zip (v :: vs) = (r, v) :: rs.zip vs := rfl
        have h2 : (r :: rs).zip (w :: ws) = (r, w) :: rs.zip ws := rfl
        rw [h1, h2]
        simp only [List.map_cons]
        have h3 : ((r.set i v) :: (rs.zip vs).map (fun p => p.1.set i p.2)).zip (w :: ws)
            = (r.set i v, w) :: ((rs.zip vs).map (fun p => p.1.set i p.2)).zip ws := rfl
        rw [h3]
        simp only [List.map_cons, List.set_set]
        rw [ih vs ws (by simpa using h)]

theorem getCell_coerce_self (cols : List String) (c : String) (r : List Scalar)
    (i : Nat) (hi : colIdx c cols = some i) :
    (getCell cols (coerceCellAt cols c r) c).isna
      = (toNumeric (getCell cols r c)).isna := by
  simp only [getCell, coerceCellAt, hi]
  by_cases hlt : i < r.length
  · rw [getD_set_lt _ _ _ _ hlt]
  · rw [List.set_eq_of_length_le (Nat.le_of_not_lt hlt),
      getD_ge _ _ _ (Nat.le_of_not_lt hlt)]
    rfl

theorem getCell_coerce_self_toNumeric (cols : List String) (c : String)
    (r : List Scalar) (i : Nat) (hi : colIdx c cols = some i) :
    (toNumeric (getCell cols (coerceCellAt cols c r) c)).isna
      = (toNumeric (getCell cols r c)).isna := by
  simp only [getCell, coerceCellAt, hi]
  by_cases hlt : i < r.length
  · rw [getD_set_lt _ _ _ _ hlt, toNumeric_toNumeric]
  · rw [List.set_eq_of_length_le (Nat.le_of_not_lt hlt)]

theorem getCell_coerce_other (cols : List String) (c c2 : String) (r : List Scalar)
    (i : Nat) (hi : colIdx c cols = some i)
    (j : Nat) (hj : colIdx c2 cols = some j) (hij : i ≠ j) :
    getCell cols (coerceCellAt cols c r) c2 = getCell cols r c2 := by
  simp only [getCell, coerceCellAt, hi, hj]
  exact getD_set_ne2 _ _ _ hij

theorem colIdx_ne_of_ne (cols : List String) (c c2 : String) (hne : c ≠ c2)
    (i : Nat) (hi : colIdx c cols = some i)
    (j : Nat) (hj : colIdx c2 cols = some j) : i ≠ j := by
  intro he
  apply hne
  have h1 := colIdx_getD c "" cols i hi
  have h2 := colIdx_getD c2 "" cols j hj
  rw [he, h2] at h1
  exact h1.symm

theorem keepRow_coerced (cols : List String) (x y : String) (r : List Scalar)
    (ix : Nat) (hx : colIdx x cols = some ix)
    (iy : Nat) (hy : colIdx y cols = some iy) :
    keepRow cols [x, y] (coerceCellAt cols y (coerceCellAt cols x r))
      = xyPass cols x y r := by
  simp only [keepRow, List.all_cons, List.all_nil, Bool.and_true, xyPass]
  by_cases hxy : x = y
  · subst hxy
    rw [hx] at hy
    have hiix : iy = ix := by simpa using hy.symm
    subst hiix
    rw [getCell_coerce_self cols x (coerceCellAt cols x r) iy hx,
      getCell_coerce_self_toNumeric cols x r iy hx]
  · have hixy : ix ≠ iy := colIdx_ne_of_ne cols x y hxy ix hx iy hy
    rw [getCell_coerce_other cols y x (coerceCellAt cols x r) iy hy ix hx
        (fun he => hixy he.symm),
      getCell_coerce_self cols x r ix hx,
      getCell_coerce_self cols y (coerceCellAt cols x r) iy hy,
      getCell_coerce_other cols x y r ix hx iy hy hixy]

theorem length_filter_add {α : Type} (p : α → Bool) :
    ∀ (l : List α), (l.filter p).length + (l.filter (fun a => !(p a))).length = l.length := by
  intro l
  induction l with
  | nil => rfl
  | cons a as ih =>
    cases hp : p a <;> simp [List.filter_cons, hp] <;> omega

theorem colIdx_append_self (c : String) :
    ∀ (l : List String), c ∉ l → colIdx c (l ++ [c]) = some l.length := by
  intro l
  induction l with
  | nil => intro _; simp [colIdx]
  | cons c0 cs ih =>
    intro h
    simp only [List.mem_cons, not_or] at h
    have hne : ¬c0 = c := fun he => h.1 he.symm
    simp [colIdx, hne, ih h.2]

theorem eraseIdx_append_self {α : Type} (a : α) :
    ∀ (l : List α), (l ++ [a]).eraseIdx l.length = l := by
  intro l
  induction l with
  | nil => rfl
  | cons b bs ih => simp [List.eraseIdx, ih]

theorem colIdx_eraseIdx (c : String) :
    ∀ (l : List String) (i : Nat), colIdx c l = some i → l.eraseIdx i = l.erase c := by
  intro l
  induction l with
  | nil => intro i h; cases h
  | cons c0 cs ih =>
    intro i h
    by_cases hc : c0 = c
    · simp only [colIdx, hc, if_true, eq_self_iff_true, if_pos] at h
      rw [← Option.some_inj.mp h]
      subst hc
      rw [List.erase_cons_head]
      rfl
    · simp only [colIdx, hc, if_false, ite_false] at h
      rw [Option.map_eq_some'] at h
      obtain ⟨j, hj, rfl⟩ := h
      have hbe : ¬(c0 == c) := by
        simp [hc]
      rw [List.erase_cons_tail hbe]
      simp [List.eraseIdx, ih j hj]

/-- Decidable equality of results, used to evaluate the pipeline at
concrete inputs. -/
instance decEqExcept {ε α : Type} [DecidableEq ε] [DecidableEq α] :
    DecidableEq (Except ε α) := fun a b =>
  match a, b with
  | .error e1, .error e2 =>
      if h : e1 = e2 then isTrue (by rw [h])
      else isFalse (fun he => h (Except.error.inj he))
  | .error _, .ok _ => isFalse (fun he => Except.noConfusion he)
  | .ok _, .error _ => isFalse (fun he => Except.noConfusion he)
  | .ok a1, .ok a2 =>
      if h : a1 = a2 then isTrue (by rw [h])
      else isFalse (fun he => h (Except.ok.inj he))

/-! Claim theorems. -/

/-- C1: In coordinate-pair (xy) mode, for every input table whose x and y
columns exist (and a source CRS code known to the registry, so that the
final construction succeeds), the build raises no error: it succeeds, its
surviving rows are exactly the input rows whose x and y cells coerce to a
non-na number — kept in their original relative order, with the x/y cells
replaced by their coerced values — and the output collection length
equals the input length minus the number of dropped rows. -/
theorem xy_build_drops_exactly (registry : Nat → Bool) (df : Table)
    (x y : String) (e : Nat) (hx : x ∈ df.cols) (hy : y ∈ df.cols)
    (hr : registry e = true) :
    ∃ g, make_gdf_from_xy registry df x y e = .ok g ∧
      g.rows = (df.rows.filter (xyPass df.cols x y)).map
        (fun r => coerceCellAt df.cols y (coerceCellAt df.cols x r)) ∧
      g.rows.length + (df.rows.filter (fun r => !(xyPass df.cols x y r))).length
        = df.rows.length ∧
      g.rows.length = df.rows.length
        - (df.rows.filter (fun r => !(xyPass df.cols x y r))).length := by
  obtain ⟨ix, hix⟩ := colIdx_mem x df.cols hx
  obtain ⟨iy, hiy⟩ := colIdx_mem y df.cols hy
  have hcond : ¬(x ∉ df.cols ∨ y ∉ df.cols) := by
    rw [not_or, not_not, not_not]
    exact ⟨hx, hy⟩
  have hrows :
      (((df.coerceNumeric x).coerceNumeric y).dropna [x, y]).rows
        = (df.rows.filter (xyPass df.cols x y)).map
            (fun r => coerceCellAt df.cols y (coerceCellAt df.cols x r)) := by
    show ((df.rows.map (coerceCellAt df.cols x)).map (coerceCellAt df.cols y)).filter
        (keepRow df.cols [x, y]) = _
    rw [List.map_map, List.filter_map]
    have hcongr :
        List.filter (keepRow df.cols [x, y] ∘ coerceCellAt df.cols y
            ∘ coerceCellAt df.cols x) df.rows
          = List.filter (xyPass df.cols x y) df.rows :=
      List.filter_congr (fun r _ => keepRow_coerced df.cols x y r ix hix iy hiy)
    rw [hcongr]
    rfl
  have h2 : (((df.coerceNumeric x).coerceNumeric y).dropna [x, y]).rows.length
      + (df.rows.filter (fun r => !(xyPass df.cols x y r))).length
      = df.rows.length := by
    rw [hrows, List.length_map]
    exact length_filter_add _ _
  have h3 : (((df.coerceNumeric x).coerceNumeric y).dropna [x, y]).rows.length
      = df.rows.length
        - (df.rows.filter (fun r => !(xyPass df.cols x y r))).length := by
    omega
  simp only [make_gdf_from_xy, mkGeoDataFrame]
  rw [if_neg hcond, if_pos hr]
  exact ⟨_, rfl, hrows, h2, h3⟩

/-- C1 witness: the scenario table of the spec — rows (7.45, 46.95) and
(bad, 46.9) — with columns lon/lat present and EPSG:4326 known. -/
theorem xy_build_drops_exactly_witness :
    ("lon" ∈ sampleXyTable.cols ∧ "lat" ∈ sampleXyTable.cols ∧
      sampleRegistry 4326 = true) ∧
    ∃ g, make_gdf_from_xy sampleRegistry sampleXyTable "lon" "lat" 4326 = .ok g ∧
      g.rows = (sampleXyTable.rows.filter (xyPass sampleXyTable.cols "lon" "lat")).map
        (fun r => coerceCellAt sampleXyTable.cols "lat"
          (coerceCellAt sampleXyTable.cols "lon" r)) ∧
      g.rows.length + (sampleXyTable.rows.filter
        (fun r => !(xyPass sampleXyTable.cols "lon" "lat" r))).length
        = sampleXyTable.rows.length ∧
      g.rows.length = sampleXyTable.rows.length - (sampleXyTable.rows.filter
        (fun r => !(xyPass sampleXyTable.cols "lon" "lat" r))).length :=
  ⟨⟨by decide, by decide, by decide⟩,
    xy_build_drops_exactly sampleRegistry sampleXyTable "lon" "lat" 4326
      (by decide) (by decide) (by decide)⟩

/-- C2 (failing evaluation): in wkt mode a malformed WKT value is not
silently dropped.  The per-cell lambda of line 55 has no try/except, so
the parse exception of the WKT reader escapes and the whole build call
fails, contradicting both the claim and the comment of line 54 of the
source ("invalid rows become NaN then dropped"). -/
theorem wkt_parse_failure_aborts :
    make_gdf_from_wkt sampleRegistry sampleParse sampleBadWktTable "geom" 4326
      = .error (.wktParseError "ParseException: could not parse NOT_A_WKT") := by
  decide

/-- The JSON text of the sampleGdf3857 collection. -/
def json3857 : String :=
  "\x7b\"type\": \"FeatureCollection\", \"features\": [\x7b\"type\": \"Feature\", \"properties\": \x7b\"name\": \"a\"\x7d, \"geometry\": \x7b\"type\": \"Point\", \"coordinates\": [1, 2]\x7d\x7d]\x7d"

/-- C3 counterexample: the encoder succeeds on a collection whose CRS is
EPSG:3857 — it neither fails nor refuses, contradicting the claim that a
non-4326 collection is rejected at encode time. -/
theorem encode_accepts_non4326_cex :
    sampleGdf3857.crs ≠ 4326 ∧
      to_geojson_bytes sampleGdf3857 = .ok (utf8Bytes json3857) := by
  exact ⟨by decide, by decide⟩

/-- C3 amended: the encoder never consults the CRS tag: its output is
identical for any retagging of the collection, so it neither checks,
refuses, nor reprojects; the EPSG:4326 convention of the output is
ensured by the caller, which reprojects to 4326 before encoding
(line 182 of the source). -/
theorem encoder_ignores_crs (g : Gdf) (e : Nat) :
    to_geojson_bytes { g with crs := e } = to_geojson_bytes g := by
  cases g
  rfl

/-- C5: in xy mode a missing x or y column makes the build fail with the
missing-column error, and the failure is decided before any row is
processed: the result is the same as on the table with no rows at all,
whatever the rows are. -/
theorem xy_missing_column_fails_early (registry : Nat → Bool)
    (cols : List String) (rows : List (List Scalar)) (x y : String) (e : Nat)
    (h : x ∉ cols ∨ y ∉ cols) :
    make_gdf_from_xy registry ⟨cols, rows⟩ x y e
        = .error (.columnNotFound "Selected X or Y column not found in the table.")
      ∧ make_gdf_from_xy registry ⟨cols, rows⟩ x y e
        = make_gdf_from_xy registry ⟨cols, []⟩ x y e := by
  constructor
  · simp only [make_gdf_from_xy]
    rw [if_pos h]
  · simp only [make_gdf_from_xy]
    rw [if_pos h, if_pos h]

/-- C5 witness: requesting the absent column qty on the scenario table
fails with the missing-column error without reading the rows. -/
theorem xy_missing_column_fails_early_witness :
    ("qty" ∉ sampleXyTable.cols ∨ "lat" ∉ sampleXyTable.cols) ∧
    (make_gdf_from_xy sampleRegistry ⟨sampleXyTable.cols, sampleXyTable.rows⟩
          "qty" "lat" 4326
        = .error (.columnNotFound "Selected X or Y column not found in the table.")
      ∧ make_gdf_from_xy sampleRegistry ⟨sampleXyTable.cols, sampleXyTable.rows⟩
          "qty" "lat" 4326
        = make_gdf_from_xy sampleRegistry ⟨sampleXyTable.cols, []⟩ "qty" "lat" 4326) :=
  ⟨by decide,
    xy_missing_column_fails_early sampleRegistry sampleXyTable.cols
      sampleXyTable.rows "qty" "lat" 4326 (by decide)⟩

/-- C6: the reprojection step is the identity when the target EPSG equals
the CRS of the collection: the collection is returned unchanged (so every
coordinate is unchanged), whatever the injected transformation is. -/
theorem reproject_same_epsg_identity
    (transform : Nat → Nat → Geom → Except String Geom) (g : Gdf) :
    reprojectStep transform g g.crs = .ok g := by
  simp [reprojectStep]

/-- C9 amended: tagging the source CRS is a pure metadata operation only
for codes the geodetic registry knows — the data and the coordinates are
stored unchanged and the CRS tag set; for a code unknown to the registry
the construction itself fails with a CRS error (it is not deferred to the
reprojection step), both at the constructor and through the xy build. -/
theorem crs_assign_registry_spec (registry : Nat → Bool) (t : Table)
    (geoms : List Geom) (e : Nat) :
    (registry e = true →
      mkGeoDataFrame registry t geoms e = .ok ⟨t.cols, t.rows, geoms, e⟩) ∧
    (registry e = false →
      mkGeoDataFrame registry t geoms e = .error (.crsError e)) ∧
    (∀ (df : Table) (x y : String), registry e = false →
      ¬(x ∉ df.cols ∨ y ∉ df.cols) →
      make_gdf_from_xy registry df x y e = .error (.crsError e)) := by
  refine ⟨fun hr => by simp [mkGeoDataFrame, hr],
    fun hr => by simp [mkGeoDataFrame, hr], ?_⟩
  intro df x y hr hcols
  simp only [make_gdf_from_xy, mkGeoDataFrame]
  rw [if_neg hcols, if_neg (by simp [hr])]

/-- C9 witness: assigning the registry-known code 4326 succeeds and
stores the table and geometries unchanged. -/
theorem crs_assign_registry_spec_witness :
    sampleRegistry 4326 = true ∧
      mkGeoDataFrame sampleRegistry sampleXyTable [] 4326
        = .ok ⟨sampleXyTable.cols, sampleXyTable.rows, [], 4326⟩ :=
  ⟨by decide,
    (crs_assign_registry_spec sampleRegistry sampleXyTable [] 4326).1 (by decide)⟩

/-- C9 counterexample: CRS assignment can fail — building with the EPSG
code 999999, a positive integer unknown to the registry, raises the CRS
error at construction time, contradicting the claim that assignment never
fails. -/
theorem crs_unknown_fails_cex :
    make_gdf_from_xy sampleRegistry
        ⟨["x", "y"], [[.num (.fin 1), .num (.fin 2)]]⟩ "x" "y" 999999
      = .error (.crsError 999999) := by
  decide

/-- C7: encoding is deterministic (equal collections give byte-identical
output), order-preserving (the JSON text is the collection header, the
per-feature encodings joined in collection order — the i-th encoded
feature is the encoding of the i-th feature — and the footer), and the
output bytes are the UTF-8 encoding of that text. -/
theorem encode_deterministic_ordered_utf8 (g : Gdf) (s : String)
    (h : gdf_to_json g = .ok s) :
    (∀ g2 : Gdf, g2 = g → to_geojson_bytes g2 = to_geojson_bytes g) ∧
    to_geojson_bytes g = .ok (utf8Bytes s) ∧
    ∃ feats : List String,
      mapExcept (fun p => jsonOfFeature g.cols p.1 p.2) (g.rows.zip g.geoms)
          = .ok feats ∧
      s = fcHeader ++ String.intercalate ", " feats ++ fcFooter ∧
      feats.length = (g.rows.zip g.geoms).length ∧
      ∀ (i : Nat) (h1 : i < (g.rows.zip g.geoms).length) (h2 : i < feats.length),
        jsonOfFeature g.cols ((g.rows.zip g.geoms).get ⟨i, h1⟩).1
            ((g.rows.zip g.geoms).get ⟨i, h1⟩).2 = .ok (feats.get ⟨i, h2⟩) := by
  have h0 := h
  simp only [gdf_to_json] at h
  cases hm : mapExcept (fun p => jsonOfFeature g.cols p.1 p.2) (g.rows.zip g.geoms) with
  | error e => rw [hm] at h; cases h
  | ok feats =>
    rw [hm] at h
    have hs := Except.ok.inj h
    refine ⟨fun g2 he => by rw [he], ?_, feats, rfl, hs.symm,
      mapExcept_ok_length _ _ _ hm, ?_⟩
    · simp only [to_geojson_bytes]
      rw [h0]
    · intro i h1 h2
      exact mapExcept_ok_get _ _ _ hm i h1 h2

/-- The JSON text of the sampleGdfSmall collection. -/
def smallJson : String :=
  "\x7b\"type\": \"FeatureCollection\", \"features\": [\x7b\"type\": \"Feature\", \"properties\": \x7b\"a\": \"v\"\x7d, \"geometry\": \x7b\"type\": \"Point\", \"coordinates\": [1, 2]\x7d\x7d]\x7d"

/-- C7 witness: the small collection encodes to the UTF-8 bytes of its
JSON text. -/
theorem encode_deterministic_ordered_utf8_witness :
    gdf_to_json sampleGdfSmall = .ok smallJson ∧
      to_geojson_bytes sampleGdfSmall = .ok (utf8Bytes smallJson) :=
  ⟨by decide,
    (encode_deterministic_ordered_utf8 sampleGdfSmall smallJson (by decide)).2.1⟩

/-- C8 amended: in the encoded properties, na numeric values (NaN,
missing) are represented as null, but the infinities are not — they are
emitted as the literal tokens Infinity and -Infinity. -/
theorem props_na_null_inf_literal (cols : List String) (r : List Scalar)
    (items : List String) (h : propItems cols r = .ok items)
    (i : Nat) (h1 : i < (cols.zip r).length) (h2 : i < items.length) :
    (((cols.zip r).get ⟨i, h1⟩).2.isna = true →
      items.get ⟨i, h2⟩
        = "\"" ++ jsonEscape ((cols.zip r).get ⟨i, h1⟩).1 ++ "\": null") ∧
    (((cols.zip r).get ⟨i, h1⟩).2 = .num .inf →
      items.get ⟨i, h2⟩
        = "\"" ++ jsonEscape ((cols.zip r).get ⟨i, h1⟩).1 ++ "\": Infinity") ∧
    (((cols.zip r).get ⟨i, h1⟩).2 = .num .ninf →
      items.get ⟨i, h2⟩
        = "\"" ++ jsonEscape ((cols.zip r).get ⟨i, h1⟩).1 ++ "\": -Infinity") := by
  have hg := mapExcept_ok_get _ (cols.zip r) items h i h1 h2
  have hfix : ∀ (t u : String),
      "\"" ++ t ++ "\": " ++ u = "\"" ++ t ++ ("\": " ++ u) := by
    intro t u
    rw [String.append_assoc]
  refine ⟨?_, ?_, ?_⟩
  · intro hna
    have hj : jsonOfProp ((cols.zip r).get ⟨i, h1⟩).2 = .ok "null" := by
      unfold jsonOfProp
      rw [hna]
      rfl
    simp only [hj] at hg
    rw [← Except.ok.inj hg, hfix]
    rfl
  · intro hv
    have hj : jsonOfProp ((cols.zip r).get ⟨i, h1⟩).2 = .ok "Infinity" := by
      rw [hv]
      rfl
    simp only [hj] at hg
    rw [← Except.ok.inj hg, hfix]
    rfl
  · intro hv
    have hj : jsonOfProp ((cols.zip r).get ⟨i, h1⟩).2 = .ok "-Infinity" := by
      rw [hv]
      rfl
    simp only [hj] at hg
    rw [← Except.ok.inj hg, hfix]
    rfl

/-- C8 witness: a NaN property is rendered null and an infinite property
is rendered Infinity. -/
theorem props_na_null_inf_literal_witness :
    (propItems ["u", "v"] [Scalar.num .nan, Scalar.num .inf]
        = .ok ["\"u\": null", "\"v\": Infinity"]) ∧
    (["\"u\": null", "\"v\": Infinity"].get ⟨0, by decide⟩ = "\"u\": null") ∧
    (["\"u\": null", "\"v\": Infinity"].get ⟨1, by decide⟩ = "\"v\": Infinity") := by
  refine ⟨by decide, ?_, ?_⟩
  · have h := (props_na_null_inf_literal ["u", "v"]
      [Scalar.num .nan, Scalar.num .inf] ["\"u\": null", "\"v\": Infinity"]
      (by decide) 0 (by decide) (by decide)).1 (by decide)
    rw [h]
    decide
  · have h := (props_na_null_inf_literal ["u", "v"]
      [Scalar.num .nan, Scalar.num .inf] ["\"u\": null", "\"v\": Infinity"]
      (by decide) 1 (by decide) (by decide)).2.1 (by decide)
    rw [h]
    decide

/-- The JSON text of the sampleGdfInf collection: the infinite property
value appears as the token Infinity. -/
def infJson : String :=
  "\x7b\"type\": \"FeatureCollection\", \"features\": [\x7b\"type\": \"Feature\", \"properties\": \x7b\"v\": Infinity\x7d, \"geometry\": \x7b\"type\": \"Point\", \"coordinates\": [0, 0]\x7d\x7d]\x7d"

/-- Whether the first list is an initial run of the second. -/
def leadsChars : List Char → List Char → Bool
  | [], _ => true
  | _ :: _, [] => false
  | a :: as, b :: bs => a = b && leadsChars as bs

/-- Whether the first character list occurs contiguously in the second. -/
def occursIn (pat : List Char) : List Char → Bool
  | [] => leadsChars pat []
  | c :: cs => leadsChars pat (c :: cs) || occursIn pat cs

/-- C8 counterexample: the collection whose single property value is
+Infinity (non-finite) encodes to a text in which the word null does not
occur at all — the non-finite value is not represented as null. -/
theorem nonfinite_not_null_cex :
    gdf_to_json sampleGdfInf = .ok infJson ∧
      occursIn ("null".data) infJson.data = false := by
  exact ⟨by decide, by decide⟩

/-- The collection built from sampleGoodWktTable: the wkt source column
is still among the attribute columns. -/
def wktKeptGdf : Gdf :=
  ⟨["name", "geom"],
   [[.str "a", .str "POINT (1 2)"], [.str "b", .str "POINT (3 4)"]],
   [.point (.fin 1) (.fin 2), .point (.fin 3) (.fin 4)], 4326⟩

/-- C4 counterexample: building in wkt mode from the column geom keeps
the column geom (with its original text) in the surviving Feature
attributes — the geometry-source column is not removed. -/
theorem wkt_column_retained_cex :
    make_gdf_from_wkt sampleRegistry sampleParse sampleGoodWktTable "geom" 4326
        = .ok wktKeptGdf ∧ "geom" ∈ wktKeptGdf.cols := by
  exact ⟨by decide, by decide⟩

/-- C4 amended: no geometry-source column is removed from the Feature
attributes.  In xy mode the attribute columns are exactly the input
columns (x and y retained, with coerced values); in wkt mode (for input
tables without a pre-existing helper column) only the internal helper
column __geom__ is absent, so the wkt source column and every other
column survive in original order. -/
theorem build_retains_source_columns (registry : Nat → Bool)
    (parse : String → Except String Geom) (df : Table) (x y w : String)
    (e : Nat) :
    (∀ g, make_gdf_from_xy registry df x y e = .ok g → g.cols = df.cols) ∧
    (geomColName ∉ df.cols →
      ∀ g, make_gdf_from_wkt registry parse df w e = .ok g → g.cols = df.cols) := by
  constructor
  · intro g hok
    by_cases hcond : x ∉ df.cols ∨ y ∉ df.cols
    · simp only [make_gdf_from_xy] at hok
      rw [if_pos hcond] at hok
      cases hok
    · simp only [make_gdf_from_xy, mkGeoDataFrame] at hok
      rw [if_neg hcond] at hok
      by_cases hr : registry e
      · rw [if_pos hr] at hok
        rw [← Except.ok.inj hok]
        rfl
      · rw [if_neg hr] at hok
        cases hok
  · intro hng g hok
    by_cases hw : w ∉ df.cols
    · simp only [make_gdf_from_wkt] at hok
      rw [if_pos hw] at hok
      cases hok
    · simp only [make_gdf_from_wkt] at hok
      rw [if_neg hw] at hok
      cases hp : mapExcept (fun r => wktCell parse (getCell df.cols r w)) df.rows with
      | error er => rw [hp] at hok; cases hok
      | ok parsed =>
        rw [hp] at hok
        have hcols2 :
            (((df.setCol geomColName parsed).dropna [geomColName]).dropCol
              geomColName).cols = df.cols := by
          simp [Table.dropCol, Table.dropna, Table.setCol,
            colIdx_eq_none_of_not_mem _ _ hng, colIdx_append_self _ _ hng,
            eraseIdx_append_self]
        by_cases hr : registry e
        · simp only [mkGeoDataFrame] at hok
          rw [if_pos hr] at hok
          rw [← Except.ok.inj hok]
          exact hcols2
        · simp only [mkGeoDataFrame] at hok
          rw [if_neg hr] at hok
          cases hok

/-- An xy table with numeric cells (and one bad row). -/
def numXyTable : Table :=
  ⟨["lon", "lat"],
   [[.num (.fin 1), .num (.fin 2)], [.str "bad", .num (.fin 3)]]⟩

/-- The collection built from numXyTable. -/
def xyBuiltGdf : Gdf :=
  ⟨["lon", "lat"],
   [[.num (.fin 1), .num (.fin 2)]],
   [.point (.fin 1) (.fin 2)], 4326⟩

/-- C4 witness: the xy build keeps the attribute columns equal to the
input columns (lon and lat are both retained). -/
theorem build_retains_source_columns_witness :
    make_gdf_from_xy sampleRegistry numXyTable "lon" "lat" 4326
        = .ok xyBuiltGdf ∧ xyBuiltGdf.cols = numXyTable.cols :=
  ⟨by decide,
    (build_retains_source_columns sampleRegistry sampleParse numXyTable
      "lon" "lat" "geom" 4326).1 xyBuiltGdf (by decide)⟩

/-- C10: when the input table already contains a column named __geom__
(and the chosen wkt column is a different, unique-named column), the wkt
build overwrites that column with the parsed geometries and then removes
it: the helper name is absent from the output attribute columns, and the
whole result is unchanged when the original __geom__ values are replaced
by any other values — the caller's original __geom__ data is silently
lost. -/
theorem geom_helper_overwritten (registry : Nat → Bool)
    (parse : String → Except String Geom) (df : Table) (w : String) (e : Nat)
    (hmem : geomColName ∈ df.cols) (hnd : df.cols.Nodup) (hw : w ≠ geomColName) :
    (∀ g, make_gdf_from_wkt registry parse df w e = .ok g →
      geomColName ∉ g.cols) ∧
    (∀ vals : List Scalar, vals.length = df.rows.length →
      make_gdf_from_wkt registry parse (df.setCol geomColName vals) w e
        = make_gdf_from_wkt registry parse df w e) := by
  obtain ⟨ig, hig⟩ := colIdx_mem _ _ hmem
  constructor
  · intro g hok
    by_cases hwin : w ∉ df.cols
    · simp only [make_gdf_from_wkt] at hok
      rw [if_pos hwin] at hok
      cases hok
    · simp only [make_gdf_from_wkt] at hok
      rw [if_neg hwin] at hok
      cases hp : mapExcept (fun r => wktCell parse (getCell df.cols r w)) df.rows with
      | error er => rw [hp] at hok; cases hok
      | ok parsed =>
        rw [hp] at hok
        have hcols2 :
            (((df.setCol geomColName parsed).dropna [geomColName]).dropCol
              geomColName).cols = df.cols.erase geomColName := by
          simp [Table.dropCol, Table.dropna, Table.setCol, hig,
            colIdx_eraseIdx _ _ _ hig]
        by_cases hr : registry e
        · simp only [mkGeoDataFrame] at hok
          rw [if_pos hr] at hok
          rw [← Except.ok.inj hok]
          intro hin
          rw [hcols2] at hin
          exact hnd.not_mem_erase hin
        · simp only [mkGeoDataFrame] at hok
          rw [if_neg hr] at hok
          cases hok
  · intro vals hlen
    have hcols1 : (df.setCol geomColName vals).cols = df.cols := by
      simp [Table.setCol, hig]
    have hrows1 : (df.setCol geomColName vals).rows
        = (df.rows.zip vals).map (fun p => p.1.set ig p.2) := by
      simp [Table.setCol, hig]
    simp only [make_gdf_from_wkt, hcols1]
    by_cases hwin : w ∉ df.cols
    · rw [if_pos hwin, if_pos hwin]
    · rw [if_neg hwin, if_neg hwin]
      obtain ⟨iw, hiw⟩ := colIdx_mem _ _ (not_not.mp hwin)
      have hneidx : ig ≠ iw :=
        colIdx_ne_of_ne df.cols geomColName w (fun he => hw he.symm) ig hig iw hiw
      have hcell : ∀ (r : List Scalar) (v : Scalar),
          wktCell parse (getCell df.cols (r.set ig v) w)
            = wktCell parse (getCell df.cols r w) := by
        intro r v
        simp only [getCell, hiw]
        rw [getD_set_ne2 _ _ _ hneidx]
      rw [hrows1,
        mapExcept_set_zip (fun r => wktCell parse (getCell df.cols r w)) ig
          hcell df.rows vals hlen]
      cases hp : mapExcept (fun r => wktCell parse (getCell df.cols r w)) df.rows with
      | error er => rfl
      | ok parsed =>
        have hset2 : (df.setCol geomColName vals).setCol geomColName parsed
            = df.setCol geomColName parsed := by
          simp only [Table.setCol, hcols1, hig, hrows1]
          rw [map_set_zip_set ig df.rows vals parsed hlen]
        simp only [hset2]

/-- The wkt-mode table that already holds a __geom__ attribute column. -/
def wgTable : Table :=
  ⟨["__geom__", "geom"], [[.str "old", .str "POINT (1 2)"]]⟩

/-- C10 witness: on a table with an existing __geom__ column, replacing
the original __geom__ value (old) by another value (NEW) leaves the
build result identical — the original data cannot reach the output. -/
theorem geom_helper_overwritten_witness :
    (geomColName ∈ wgTable.cols ∧ wgTable.cols.Nodup ∧ "geom" ≠ geomColName) ∧
    make_gdf_from_wkt sampleRegistry sampleParse
        (wgTable.setCol geomColName [Scalar.str "NEW"]) "geom" 4326
      = make_gdf_from_wkt sampleRegistry sampleParse wgTable "geom" 4326 :=
  ⟨⟨by decide, by decide, by decide⟩,
    (geom_helper_overwritten sampleRegistry sampleParse wgTable "geom" 4326
      (by decide) (by decide) (by decide)).2 [Scalar.str "NEW"] (by decide)⟩

end App
